import Mathlib

/-!
Verification of the iopole search-params builder (`src/builder.js`).

The source is a fluent query-string builder: leaf conditions
(`Condition`, `BetweenCondition`) and logical groups (`Group`) form an
expression tree; the `Builder` class accumulates nodes in a root group
and `build()` renders the tree to a string, stripping one layer of outer
parentheses when present.

JavaScript values that may reach the value formatter are modelled by the
inductive `JSValue` (strings, numbers restricted to integers as in every
use in the repository, booleans, plus `null` and `undefined` for the
out-of-contract cases).  JS template-literal coercion (the backtick
interpolation in the source's `toString` methods) is `jsCoerce`.
Strings are Lean `String`s; `build`'s `startsWith('(')`,
`endsWith(')')` and `slice(1, -1)` are expressed on `String.data`,
which is exactly what those single-character JS operations test.
-/

namespace IopoleBuilder

/-- The dynamic values the builder accepts: JS strings, numbers
(integer-valued in every use in this repository), booleans, and the
out-of-contract `null` / `undefined`. -/
inductive JSValue where
  | vStr (s : String)
  | vNum (n : Int)
  | vBool (b : Bool)
  | vNull
  | vUndefined
deriving DecidableEq

/-- JS `typeof` on a `JSValue` (`typeof null` is `"object"` in JS). -/
def JSValue.typeof : JSValue → String
  | .vStr _ => "string"
  | .vNum _ => "number"
  | .vBool _ => "boolean"
  | .vNull => "object"
  | .vUndefined => "undefined"

/-- JS template-literal coercion of a value into a string, as performed
by the backtick interpolation in the source's `toString` methods. -/
def jsCoerce : JSValue → String
  | .vStr s => s
  | .vNum n => toString n
  | .vBool b => if b then "true" else "false"
  | .vNull => "null"
  | .vUndefined => "undefined"

namespace Ops

/-- `Ops.EQUALS` from `src/builder.js`. -/
def EQUALS : String := ":"

/-- `Ops.STRICT_EQUALS` from `src/builder.js`. -/
def STRICT_EQUALS : String := ":="

/-- `Ops.GT` from `src/builder.js`. -/
def GT : String := ":>"

/-- `Ops.GTE` from `src/builder.js`. -/
def GTE : String := ":>="

/-- `Ops.LT` from `src/builder.js`. -/
def LT : String := ":<"

/-- `Ops.LTE` from `src/builder.js`. -/
def LTE : String := ":<="

/-- `Ops.BETWEEN` from `src/builder.js`. -/
def BETWEEN : String := ":["

/-- `Ops.STRICT_BETWEEN` (`:` followed by an opening brace). -/
def STRICT_BETWEEN : String := ":\x7b"

/-- `Ops.AND` from `src/builder.js`. -/
def AND : String := "AND"

/-- `Ops.OR` from `src/builder.js`. -/
def OR : String := "OR"

/-- `Ops.AND_NOT` from `src/builder.js`. -/
def AND_NOT : String := "AND NOT"

/-- `Ops.OR_NOT` from `src/builder.js`. -/
def OR_NOT : String := "OR NOT"

end Ops

/-- `Condition.formatValue` / `BetweenCondition.formatValue` from
`src/builder.js` (the two bodies are identical): a string already
starting with a double quote — the source's single-character
`value.startsWith('"')`, i.e. the first character is `"` — is returned
as is, any other string is wrapped in double quotes, every non-string
value is returned unchanged. -/
def formatValue : JSValue → JSValue
  | .vStr s =>
      if s.data.head? = some ('\"') then .vStr s
      else .vStr (("\"") ++ s ++ ("\""))
  | v => v

/-- The same `formatValue` method with the JS exception channel made
explicit as `Except`: the source body contains no `throw`, so every
path returns `Except.ok`. -/
def formatValueE : JSValue → Except String JSValue
  | .vStr s =>
      if s.data.head? = some ('\"') then .ok (.vStr s)
      else .ok (.vStr (("\"") ++ s ++ ("\"")))
  | v => .ok v

/-- The expression tree of `src/builder.js`: `Condition` leaves,
`BetweenCondition` leaves, and `Group` internal nodes (logic operator
plus ordered child list). -/
inductive QueryNode where
  | cond (field : String) (operator : String) (value : JSValue)
  | betweenCond (field : String) (operator : String)
      (fromValue : JSValue) (toValue : JSValue)
  | group (logicOperator : String) (nodes : List QueryNode)

/-- `Array.prototype.join(sep)` on a list of strings. -/
def joinSep (sep : String) : List String → String
  | [] => ""
  | [x] => x
  | x :: xs => x ++ sep ++ joinSep sep xs

mutual

/-- The `toString` methods of the three node classes in
`src/builder.js`:
* `Condition.toString`: `field + operator + formatValue(value)`;
* `BetweenCondition.toString`: `field + operator + from + " TO " + to`
  closed by a brace when the operator is `STRICT_BETWEEN`, else by `]`;
* `Group.toString`: empty string for zero children, otherwise children
  joined with the spaced logic operator, wrapped in parentheses when
  there is more than one child. -/
def render : QueryNode → String
  | .cond field operator value =>
      field ++ operator ++ jsCoerce (formatValue value)
  | .betweenCond field operator fromValue toValue =>
      let endOperator := if operator = Ops.STRICT_BETWEEN then ("\x7d") else ("]")
      field ++ operator ++ jsCoerce (formatValue fromValue) ++ (" TO ") ++
        jsCoerce (formatValue toValue) ++ endOperator
  | .group logicOperator nodes =>
      if nodes.length = 0 then ""
      else
        let joined := joinSep ((" ") ++ logicOperator ++ (" ")) (renderList nodes)
        if nodes.length > 1 then ("(") ++ joined ++ (")") else joined

/-- `this.nodes.map(n => n.toString())` inside `Group.toString`. -/
def renderList : List QueryNode → List String
  | [] => []
  | n :: ns => render n :: renderList ns

end

/-- The `Builder` class: it owns a root `Group`, stored here as the
group's logic operator and child list (`this.root.logicOperator`,
`this.root.nodes`). -/
structure Builder where
  rootLogic : String
  rootNodes : List QueryNode

/-- `new Builder()`: the root is `new Group(Ops.AND)`. -/
def Builder.new : Builder := ⟨Ops.AND, []⟩

/-- `this.root` as a tree node. -/
def Builder.root (b : Builder) : QueryNode := .group b.rootLogic b.rootNodes

/-- `Group.add` applied to the builder's root: `this.nodes.push(node)`. -/
def Builder.add (b : Builder) (node : QueryNode) : Builder :=
  { b with rootNodes := b.rootNodes ++ [node] }

/-- `Builder.where` (named `where'` because `where` is a Lean keyword). -/
def Builder.where' (b : Builder) (field operator : String) (value : JSValue) : Builder :=
  b.add (.cond field operator value)

/-- `Builder.is`: strict match, always `Ops.STRICT_EQUALS`. -/
def Builder.is (b : Builder) (field : String) (value : JSValue) : Builder :=
  b.where' field Ops.STRICT_EQUALS value

/-- `Builder.matches`: dispatches on `typeof value`. -/
def Builder.matches (b : Builder) (field : String) (value : JSValue) : Builder :=
  if value.typeof = ("number") ∨ value.typeof = ("boolean") then b.is field value
  else b.where' field Ops.EQUALS value

/-- `Builder.between`: inclusive range condition. -/
def Builder.between (b : Builder) (field : String) (fromValue toValue : JSValue) : Builder :=
  b.add (.betweenCond field Ops.BETWEEN fromValue toValue)

/-- `Builder.strictBetween`: exclusive range condition. -/
def Builder.strictBetween (b : Builder) (field : String) (fromValue toValue : JSValue) : Builder :=
  b.add (.betweenCond field Ops.STRICT_BETWEEN fromValue toValue)

/-- `Builder.group`: a fresh sub-builder whose root group uses `logic`
is handed to the callback, and its finished root is appended to this
builder's root.  The callback is the pure-state image of a JS callback
that chains builder methods on its argument. -/
def Builder.group (b : Builder) (logic : String) (callback : Builder → Builder) : Builder :=
  let subBuilder : Builder := ⟨logic, []⟩
  let sub := callback subBuilder
  b.add (.group sub.rootLogic sub.rootNodes)

/-- `Builder.and`. -/
def Builder.and (b : Builder) (callback : Builder → Builder) : Builder :=
  b.group Ops.AND callback

/-- `Builder.andNot`. -/
def Builder.andNot (b : Builder) (callback : Builder → Builder) : Builder :=
  b.group Ops.AND_NOT callback

/-- `Builder.or`. -/
def Builder.or (b : Builder) (callback : Builder → Builder) : Builder :=
  b.group Ops.OR callback

/-- `Builder.orNot`. -/
def Builder.orNot (b : Builder) (callback : Builder → Builder) : Builder :=
  b.group Ops.OR_NOT callback

/-- `Builder.build`: renders the root group (the source's local `str`,
inlined here) and strips one layer of outer parentheses when the text
both starts with `(` and ends with `)` — the source's
`str.startsWith('(') && str.endsWith(')')` followed by
`str.slice(1, -1)`, expressed on the character list. -/
def Builder.build (b : Builder) : String :=
  if (render b.root).data.head? = some ('(') ∧ (render b.root).data.getLast? = some (')') then
    String.mk (((render b.root).data.drop 1).dropLast)
  else render b.root

/-- `Builder.build` with the mutable builder state threaded explicitly:
the method body only reads `this.root`, so the state component is
returned untouched. -/
def Builder.buildM (b : Builder) : String × Builder :=
  if (render b.root).data.head? = some ('(') ∧ (render b.root).data.getLast? = some (')') then
    (String.mk (((render b.root).data.drop 1).dropLast), b)
  else (render b.root, b)

lemma renderList_eq_map (ns : List QueryNode) : renderList ns = ns.map render := by
  induction ns with
  | nil => rfl
  | cons n ns ih => simp [renderList, ih]

lemma string_append_empty (s : String) : s ++ ("") = s := by
  apply String.ext
  simp [String.data_append]

lemma data_paren_wrap (s : String) :
    ((("(") ++ s ++ (")")).data) = ('(') :: (s.data ++ [(')')]) := by
  simp [String.data_append]

/-- When the rendered root is a parenthesized text, `build` strips
exactly the outer parenthesis pair. -/
lemma build_strip (b : Builder) (s : String) (h : render b.root = ("(") ++ s ++ (")")) :
    b.build = s := by
  unfold Builder.build
  rw [h, data_paren_wrap]
  rw [if_pos]
  · apply String.ext
    rw [List.drop_one, List.tail_cons, List.dropLast_concat]
  · refine ⟨rfl, ?_⟩
    rw [show (('(') :: (s.data ++ [(')')])) = ((('(') :: s.data) ++ [(')')]) from rfl]
    exact List.getLast?_concat _

lemma formatValueE_ok (v : JSValue) : formatValueE v = Except.ok (formatValue v) := by
  cases v with
  | vStr s =>
      simp only [formatValueE, formatValue]
      split <;> rfl
  | vNum n => rfl
  | vBool b => rfl
  | vNull => rfl
  | vUndefined => rfl

/-- Claim C1: the chained call `matches('buyer.siren','*123456789')`,
then `or` with a callback adding `matches('buyer.corporateName','iopole')`
and `matches('seller.corporateName','myOtherCompany')`, then
`where('createdDate', GTE, '2024-01-01')`, then
`where('createdDate', LTE, '2025-01-01')`, followed by `build()`,
returns exactly the expected query string: root-level conditions joined
with AND, the nested OR group parenthesized, and the outermost wrapping
parentheses stripped. -/
theorem chained_query_builds_expected_string :
    ((((Builder.new.matches ("buyer.siren") (.vStr ("*123456789"))).or
          (fun qb => (qb.matches ("buyer.corporateName") (.vStr ("iopole"))).matches
            ("seller.corporateName") (.vStr ("myOtherCompany")))).where'
        ("createdDate") Ops.GTE (.vStr ("2024-01-01"))).where'
      ("createdDate") Ops.LTE (.vStr ("2025-01-01"))).build
    = ("buyer.siren:\"*123456789\" AND (buyer.corporateName:\"iopole\" OR seller.corporateName:\"myOtherCompany\") AND createdDate:>=\"2024-01-01\" AND createdDate:<=\"2025-01-01\"") := by
  rfl

/-- Claim C2 (counterexample): with only
`or(qb => { qb.matches('role','admin'); qb.matches('role','editor') })`
on a fresh builder, `build()` does NOT return the parenthesized string
`(role:"admin" OR role:"editor")`: the root group has that OR group as
its single child, so its text is the OR group's wrapped text, and
`build()` then strips that outer wrapping. -/
theorem single_or_group_build_ne_parenthesized :
    (Builder.new.or (fun qb =>
        (qb.matches ("role") (.vStr ("admin"))).matches ("role") (.vStr ("editor")))).build
      ≠ ("(role:\"admin\" OR role:\"editor\")") := by
  decide

/-- Claim C2 (amended): with only
`or(qb => { qb.matches('role','admin'); qb.matches('role','editor') })`
on a fresh builder, `build()` returns `role:"admin" OR role:"editor"` —
the OR group's parentheses are removed by `build()`'s top-level
stripping, because the OR group is the root group's only child. -/
theorem single_or_group_build_strips_parens :
    (Builder.new.or (fun qb =>
        (qb.matches ("role") (.vStr ("admin"))).matches ("role") (.vStr ("editor")))).build
      = ("role:\"admin\" OR role:\"editor\"") := by
  rfl

/-- Claim C9: on a fresh builder with no condition or group ever added,
`build()` returns the empty string (and, the embedding being total, no
error is raised). -/
theorem empty_builder_builds_empty_string : Builder.new.build = ("") := by
  rfl

/-- Claim C3: a group renders to the empty string when it has zero
children, to the single child's text (no parentheses, whatever the
logic operator) when it has exactly one child, and to the children's
texts joined with the spaced logic operator and wrapped in parentheses
when it has two or more children, the children appearing in append
order. -/
theorem group_render_cases (logicOperator : String) (nodes : List QueryNode) :
    (nodes = [] → render (.group logicOperator nodes) = ("")) ∧
    (∀ n, nodes = [n] → render (.group logicOperator nodes) = render n) ∧
    (2 ≤ nodes.length →
      render (.group logicOperator nodes) =
        ("(") ++ joinSep ((" ") ++ logicOperator ++ (" ")) (nodes.map render) ++ (")")) := by
  refine ⟨?_, ?_, ?_⟩
  · rintro rfl
    rfl
  · rintro n rfl
    rfl
  · intro h
    obtain ⟨a, t2, rfl⟩ : ∃ a t2, nodes = a :: t2 := by
      cases nodes with
      | nil => simp at h
      | cons a t2 => exact ⟨a, t2, rfl⟩
    obtain ⟨c, t, rfl⟩ : ∃ c t, t2 = c :: t := by
      cases t2 with
      | nil => simp at h
      | cons c t => exact ⟨c, t, rfl⟩
    simp only [render]
    rw [if_neg (by simp), if_pos (by simp), renderList_eq_map]

/-- Claim C3 (witness): the three cases at concrete groups — the empty
group, a singleton OR group, and a two-child OR group. -/
theorem group_render_cases_witness :
    (render (QueryNode.group ("AND") []) = ("")) ∧
    (render (QueryNode.group ("OR") [QueryNode.cond ("a") Ops.EQUALS (.vNum 1)])
        = render (QueryNode.cond ("a") Ops.EQUALS (.vNum 1))) ∧
    (render (QueryNode.group ("OR")
          [QueryNode.cond ("a") Ops.EQUALS (.vNum 1), QueryNode.cond ("c") Ops.EQUALS (.vNum 2)])
        = ("(") ++ joinSep ((" ") ++ ("OR") ++ (" "))
            ([QueryNode.cond ("a") Ops.EQUALS (.vNum 1),
              QueryNode.cond ("c") Ops.EQUALS (.vNum 2)].map render) ++ (")")) :=
  ⟨(group_render_cases ("AND") []).1 rfl,
   (group_render_cases ("OR") [QueryNode.cond ("a") Ops.EQUALS (.vNum 1)]).2.1
      (QueryNode.cond ("a") Ops.EQUALS (.vNum 1)) rfl,
   (group_render_cases ("OR")
        [QueryNode.cond ("a") Ops.EQUALS (.vNum 1), QueryNode.cond ("c") Ops.EQUALS (.vNum 2)]).2.2
      (by decide)⟩

/-- Claim C4: the value formatter returns a string starting with a
double quote unchanged, wraps every other string in exactly one pair of
double quotes, and renders numbers and booleans via their natural
textual representation, unquoted. -/
theorem formatValue_quoting (s : String) (n : Int) :
    (s.data.head? = some ('\"') → formatValue (.vStr s) = .vStr s) ∧
    (s.data.head? ≠ some ('\"') →
        formatValue (.vStr s) = .vStr (("\"") ++ s ++ ("\""))) ∧
    jsCoerce (formatValue (.vNum n)) = toString n ∧
    jsCoerce (formatValue (.vBool true)) = ("true") ∧
    jsCoerce (formatValue (.vBool false)) = ("false") := by
  refine ⟨?_, ?_, rfl, rfl, rfl⟩
  · intro h
    simp only [formatValue]
    rw [if_pos h]
  · intro h
    simp only [formatValue]
    rw [if_neg h]

/-- Claim C4 (witness): an already-quoted string passes through
unchanged and an unquoted one is wrapped once. -/
theorem formatValue_quoting_witness :
    formatValue (.vStr ("\"MyCompany\"")) = .vStr ("\"MyCompany\"") ∧
    formatValue (.vStr ("active")) = .vStr (("\"") ++ ("active") ++ ("\"")) :=
  ⟨(formatValue_quoting ("\"MyCompany\"") 0).1 rfl,
   (formatValue_quoting ("active") 0).2.1 (by decide)⟩

/-- Claim C5: `matches(f, v)` produces exactly the builder state of
`is(f, v)` when `typeof v` is number or boolean, and exactly the state
of `where(f, EQUALS, v)` when `v` is a string; and `is(f, v)` always
uses the strict-equality operator `:=` regardless of the value's
type. -/
theorem matches_dispatch (b : Builder) (f : String) (v : JSValue) :
    (v.typeof = ("number") ∨ v.typeof = ("boolean") → b.matches f v = b.is f v) ∧
    (v.typeof = ("string") → b.matches f v = b.where' f Ops.EQUALS v) ∧
    b.is f v = b.where' f Ops.STRICT_EQUALS v := by
  refine ⟨?_, ?_, rfl⟩
  · intro h
    simp only [Builder.matches]
    rw [if_pos h]
  · intro h
    have hn : ¬(v.typeof = ("number") ∨ v.typeof = ("boolean")) := by
      rw [h]; decide
    simp only [Builder.matches]
    rw [if_neg hn]

/-- Claim C5 (witness): the dispatch at a number, a boolean and a
string value. -/
theorem matches_dispatch_witness :
    (Builder.new.matches ("count") (.vNum 10) = Builder.new.is ("count") (.vNum 10)) ∧
    (Builder.new.matches ("isPublished") (.vBool true)
        = Builder.new.is ("isPublished") (.vBool true)) ∧
    (Builder.new.matches ("status") (.vStr ("active"))
        = Builder.new.where' ("status") Ops.EQUALS (.vStr ("active"))) :=
  ⟨(matches_dispatch Builder.new ("count") (.vNum 10)).1 (Or.inl rfl),
   (matches_dispatch Builder.new ("isPublished") (.vBool true)).1 (Or.inr rfl),
   (matches_dispatch Builder.new ("status") (.vStr ("active"))).2.1 rfl⟩

/-- Claim C6: `between` appends a range condition rendering as
`field:[from TO to]` (closing `]`), `strictBetween` one rendering as
`field:{from TO to}` (closing brace), so the closing bracket always
matches the opening bracket embedded in the operator token. -/
theorem between_bracket_matching (b : Builder) (field : String) (fromValue toValue : JSValue) :
    (b.between field fromValue toValue
        = b.add (QueryNode.betweenCond field Ops.BETWEEN fromValue toValue)) ∧
    (b.strictBetween field fromValue toValue
        = b.add (QueryNode.betweenCond field Ops.STRICT_BETWEEN fromValue toValue)) ∧
    (render (QueryNode.betweenCond field Ops.BETWEEN fromValue toValue)
        = field ++ (":[") ++ jsCoerce (formatValue fromValue) ++ (" TO ")
            ++ jsCoerce (formatValue toValue) ++ ("]")) ∧
    (render (QueryNode.betweenCond field Ops.STRICT_BETWEEN fromValue toValue)
        = field ++ (":\x7b") ++ jsCoerce (formatValue fromValue) ++ (" TO ")
            ++ jsCoerce (formatValue toValue) ++ ("\x7d")) :=
  ⟨rfl, rfl, rfl, rfl⟩

/-- Claim C7: `build()` is read-only on the builder state — with the
state threaded explicitly, the state component comes back unchanged,
the string component is exactly `build()`'s result, and a second call
on the returned state yields the same string. -/
theorem build_readonly_idempotent (b : Builder) :
    (b.buildM).2 = b ∧ (b.buildM).1 = b.build ∧ (b.buildM).1 = (((b.buildM).2).buildM).1 := by
  have h2 : (b.buildM).2 = b := by
    unfold Builder.buildM
    split <;> rfl
  have h1 : (b.buildM).1 = b.build := by
    unfold Builder.buildM Builder.build
    split <;> simp [*]
  exact ⟨h2, h1, by rw [h2]⟩

/-- Claim C8 (counterexample): the value formatter does not raise on a
value outside {string, number, boolean} — at `null` it returns the
value unchanged through the (never used) exception channel. -/
theorem formatValue_null_no_raise :
    formatValueE JSValue.vNull = Except.ok JSValue.vNull ∧
    formatValueE JSValue.vNull ≠ Except.error ("UnsupportedValueType") := by
  exact ⟨rfl, fun h => Except.noConfusion h⟩

/-- Claim C8 (amended): the value formatter never raises — its body
contains no throw, so every value, including those outside
{string, number, boolean}, is returned normally, and every non-string
value is returned unchanged (to be coerced textually only at
interpolation time). -/
theorem formatValue_never_errors (v : JSValue) :
    formatValueE v = Except.ok (formatValue v) ∧ (v.typeof ≠ ("string") → formatValue v = v) := by
  refine ⟨formatValueE_ok v, ?_⟩
  cases v with
  | vStr s => exact fun h => absurd rfl h
  | vNum n => exact fun _ => rfl
  | vBool c => exact fun _ => rfl
  | vNull => exact fun _ => rfl
  | vUndefined => exact fun _ => rfl

/-- Claim C8 amended (witness): at `undefined`, the formatter returns
the value unchanged and raises nothing. -/
theorem formatValue_never_errors_witness :
    formatValueE JSValue.vUndefined = Except.ok (formatValue JSValue.vUndefined) ∧
    formatValue JSValue.vUndefined = JSValue.vUndefined :=
  ⟨(formatValue_never_errors JSValue.vUndefined).1,
   (formatValue_never_errors JSValue.vUndefined).2 (by decide)⟩

/-- Claim C10: an empty sub-group is neither rejected nor filtered out —
after one condition, a `group(logic, callback)` call whose callback adds
nothing contributes an empty string to the root group's join, so
`build()` returns the condition's text followed by a dangling ` AND `
separator (the root group's operator) with a trailing space. -/
theorem empty_group_dangling_separator (f operator : String) (v : JSValue) (logic : String) :
    ((Builder.new.where' f operator v).group logic (fun qb => qb)).build
      = render (QueryNode.cond f operator v) ++ (" AND ") := by
  have hroot : render ((Builder.new.where' f operator v).group logic (fun qb => qb)).root
      = ("(") ++ (render (QueryNode.cond f operator v) ++ (" AND ") ++ ("")) ++ (")") := rfl
  rw [build_strip _ _ hroot]
  exact string_append_empty _

/-- Claim C10 (witness-style corollary at the concrete input of the
claim): `matches('status','active')` followed by an AND group whose
callback adds nothing builds to `status:"active" AND ` with the
dangling separator. -/
theorem empty_group_dangling_separator_example :
    ((Builder.new.matches ("status") (.vStr ("active"))).group Ops.AND (fun qb => qb)).build
      = ("status:\"active\" AND ") := by
  rfl

end IopoleBuilder
